import Mathlib

/-!
Verification development for the vitess binlog streamer
(`go/vt/binlog/binlog_streamer.go`).

The Go source is shallowly embedded: the statement classifier, the
transaction assembler (`begin`/`commit` closures), the per-event body of
the `parseEvents` loop and the error wrapping in `Stream` become pure
Lean functions.  External collaborators (the slave connection, the
per-opcode event decoders, the GTID codec) are modelled by the data they
hand to the core, exactly the capability set the Go code consumes.
Cancellation (`ctx.IsRunning` / `ctx.ShuttingDown`) is not modelled: the
event channel is a finite list, and exhausting it plays the role of the
channel closing.
-/

namespace BinlogStreamer

/-- Statement categories, mirroring the protobuf enum
`binlogdatapb.BinlogTransaction_Statement_Category`.
`BL_UNRECOGNIZED` is the zero value (returned by a missed map lookup). -/
inductive Category where
  | BL_UNRECOGNIZED
  | BL_BEGIN
  | BL_COMMIT
  | BL_ROLLBACK
  | BL_DML
  | BL_DDL
  | BL_SET
deriving DecidableEq, Repr

/-- A MySQL charset triple, mirroring `binlogdatapb.Charset`
(client, conn, server charset ids).  Value equality is field equality,
as with Go struct comparison `*q.Charset != *bls.clientCharset`. -/
structure Charset where
  client : Nat
  conn : Nat
  server : Nat
deriving DecidableEq, Repr

/-- One statement of an assembled transaction, mirroring
`binlogdatapb.BinlogTransaction_Statement` (`Category`, `Sql`, optional
`Charset`). -/
structure Statement where
  category : Category
  sql : String
  charset : Option Charset := none
deriving DecidableEq, Repr

/-- An assembled transaction, mirroring `binlogdatapb.BinlogTransaction`:
ordered statements, the commit-triggering event's timestamp, and the
string-encoded GTID.  The Go timestamp is `int64(uint32)`, which is
lossless, so `Nat` suffices. -/
structure BinlogTransaction where
  statements : List Statement
  timestamp : Nat
  transactionId : String
deriving DecidableEq, Repr

/-- Modelled from the spec: a GTID is an opaque, dialect-tagged identifier
of one committed transaction (`replication.GTID` lives outside this
repository).  Only value identity and string serialization are used. -/
structure GTID where
  flavor : String
  value : String
deriving DecidableEq, Repr

/-- Modelled from the spec: the external codec `replication.EncodeGTID`
serializes a GTID to the string used as a transaction id; on the nil
GTID interface it yields the empty string. -/
def serializeGTID (g : GTID) : String :=
  g.flavor ++ "/" ++ g.value

/-- Encoding of a possibly-absent GTID (`replication.EncodeGTID` applied
to the `gtid` local, which starts as the nil interface). -/
def encodeGTID : Option GTID → String
  | none => ""
  | some g => serializeGTID g

/-- Modelled from the spec: a replication position is an append-only
aggregate of observed GTIDs (`replication.Position` lives outside this
repository).  `AppendGTID` is list append of the new GTID. -/
def Position := List GTID
deriving DecidableEq, Repr

/-- The external `replication.AppendGTID pos gtid`: fold one more GTID
into a position. -/
def AppendGTID (pos : Position) (g : GTID) : Position :=
  List.append pos [g]

/-- Modelled from the spec: string form of a position, used in the
`stream error @ <position>:` message (`replication.Position.String`). -/
def posToString (pos : Position) : String :=
  String.intercalate "," (List.map serializeGTID pos)

/-- The binlog format metadata (`replication.BinlogFormat`), external to
this repository; the core only tests its distinguished zero state. -/
structure BinlogFormat where
  formatVersion : Nat
deriving DecidableEq, Repr

/-- The `format.IsZero()` test: format not yet discovered. -/
def BinlogFormat.IsZero (f : BinlogFormat) : Bool :=
  f.formatVersion == 0

/-- Decoded payload of a query event (`replication.Query`): database,
optional charset, SQL text. -/
structure Query where
  database : String
  charset : Option Charset := none
  sql : String
deriving DecidableEq, Repr

/-- The `replication.BinlogEvent` capability set consumed by the core:
validity, format discovery, rotate detection, checksum stripping, GTID
presence and decode, kind discrimination, per-kind decoded payloads and
the header timestamp.  Decoder results are `Except`, standing for the
`(value, error)` pairs the Go interfaces return. -/
structure BinlogEvent where
  valid : Bool := true
  isFormatDescription : Bool := false
  formatResult : Except String BinlogFormat := Except.error "not a format event"
  isRotate : Bool := false
  stripOk : Bool := true
  hasGTID : Bool := false
  gtidResult : Except String GTID := Except.error "no gtid"
  isGTID : Bool := false
  isBeginGTID : Bool := false
  isXID : Bool := false
  isIntVar : Bool := false
  intVarResult : Except String (String × Nat) := Except.error "not an intvar event"
  isRand : Bool := false
  randResult : Except String (Nat × Nat) := Except.error "not a rand event"
  isQuery : Bool := false
  queryResult : Except String Query := Except.error "not a query event"
  timestamp : Nat := 0

/-- The `statementPrefixes` table: normal sql statement prefixes, keyed
by the lowercased leading token.  A Go map is modelled as an association
list with distinct keys. -/
def statementPrefixes : List (String × Category) :=
  [("begin", Category.BL_BEGIN),
   ("commit", Category.BL_COMMIT),
   ("rollback", Category.BL_ROLLBACK),
   ("insert", Category.BL_DML),
   ("update", Category.BL_DML),
   ("delete", Category.BL_DML),
   ("create", Category.BL_DDL),
   ("alter", Category.BL_DDL),
   ("drop", Category.BL_DDL),
   ("truncate", Category.BL_DDL),
   ("rename", Category.BL_DDL),
   ("set", Category.BL_SET)]

/-- `getStatementCategory`: truncate the SQL at the first space byte
(`strings.IndexByte(sql, ' ')` and reslice, written here as a takeWhile
over the character data), lowercase, and look the token up in
`statementPrefixes`; a missed lookup yields the enum zero value
`BL_UNRECOGNIZED`.  `Char.toLower` folds ASCII letters, which covers
every key of the table. -/
def getStatementCategory (sql : String) : Category :=
  let tok := String.mk ((sql.data.takeWhile fun c => c != ' ').map Char.toLower)
  match statementPrefixes.find? (fun p => p.1 == tok) with
  | some p => p.2
  | none => Category.BL_UNRECOGNIZED

/-- The spec's classification table written as a decision chain over an
already-extracted token (used to state C4 independently of the lookup
mechanism). -/
def specCategoryOfToken (t : String) : Category :=
  if t = "begin" then Category.BL_BEGIN
  else if t = "commit" then Category.BL_COMMIT
  else if t = "rollback" then Category.BL_ROLLBACK
  else if t = "insert" then Category.BL_DML
  else if t = "update" then Category.BL_DML
  else if t = "delete" then Category.BL_DML
  else if t = "create" then Category.BL_DDL
  else if t = "alter" then Category.BL_DDL
  else if t = "drop" then Category.BL_DDL
  else if t = "truncate" then Category.BL_DDL
  else if t = "rename" then Category.BL_DDL
  else if t = "set" then Category.BL_SET
  else Category.BL_UNRECOGNIZED

/-- Classifier as the spec's words read literally: first
whitespace-delimited token (any whitespace character ends the token),
lowercased, against the table. -/
def specGetCategoryWhitespace (sql : String) : Category :=
  specCategoryOfToken
    (String.mk ((sql.data.takeWhile fun c => !c.isWhitespace).map Char.toLower))

/-- Classifier with the token delimited by the space character only, as
the code does. -/
def specGetCategorySpace (sql : String) : Category :=
  specCategoryOfToken
    (String.mk ((sql.data.takeWhile fun c => c != ' ').map Char.toLower))

theorem find?_statementPrefixes (t : String) :
    (match statementPrefixes.find? (fun p => p.1 == t) with
     | some p => p.2
     | none => Category.BL_UNRECOGNIZED) = specCategoryOfToken t := by
  by_cases h1 : t = "begin"
  · subst h1; decide
  by_cases h2 : t = "commit"
  · subst h2; decide
  by_cases h3 : t = "rollback"
  · subst h3; decide
  by_cases h4 : t = "insert"
  · subst h4; decide
  by_cases h5 : t = "update"
  · subst h5; decide
  by_cases h6 : t = "delete"
  · subst h6; decide
  by_cases h7 : t = "create"
  · subst h7; decide
  by_cases h8 : t = "alter"
  · subst h8; decide
  by_cases h9 : t = "drop"
  · subst h9; decide
  by_cases h10 : t = "truncate"
  · subst h10; decide
  by_cases h11 : t = "rename"
  · subst h11; decide
  by_cases h12 : t = "set"
  · subst h12; decide
  have hnone : statementPrefixes.find? (fun p => p.1 == t) = none := by
    rw [List.find?_eq_none]
    intro a ha
    simp only [statementPrefixes, List.mem_cons, List.not_mem_nil, or_false] at ha
    rcases ha with rfl | rfl | rfl | rfl | rfl | rfl | rfl | rfl | rfl | rfl | rfl | rfl <;>
      simp only [beq_iff_eq] <;> intro hh <;>
      first
      | exact h1 hh.symm
      | exact h2 hh.symm
      | exact h3 hh.symm
      | exact h4 hh.symm
      | exact h5 hh.symm
      | exact h6 hh.symm
      | exact h7 hh.symm
      | exact h8 hh.symm
      | exact h9 hh.symm
      | exact h10 hh.symm
      | exact h11 hh.symm
      | exact h12 hh.symm
  rw [hnone]
  simp only [specCategoryOfToken, if_neg h1, if_neg h2, if_neg h3, if_neg h4, if_neg h5,
    if_neg h6, if_neg h7, if_neg h8, if_neg h9, if_neg h10, if_neg h11, if_neg h12]

/-- Result of one `sendTransaction` callback invocation: `ok` (nil
error), `eof` (`io.EOF`), or any other error with its message. -/
inductive SendResult where
  | ok
  | eof
  | err (m : String)
deriving DecidableEq, Repr

/-- The `sendTransactionFunc` callback type. -/
def SendFn := BinlogTransaction → SendResult

/-- Errors escaping the streamer: the two exported sentinels
`ErrClientEOF` and `ErrServerEOF` (value-comparable constructors), or a
descriptive error string. -/
inductive StreamError where
  | clientEOF
  | serverEOF
  | msg (m : String)
deriving DecidableEq, Repr

/-- The error text carried by each `StreamError`, as `fmt.Errorf`
renders it (`%v` on the sentinel errors yields their message). -/
def errMessage : StreamError → String
  | StreamError.clientEOF => "binlog stream consumer ended the reply stream"
  | StreamError.serverEOF => "binlog stream connection was closed by mysqld"
  | StreamError.msg m => m

/-- The `Streamer` configuration fixed at creation: dbname (scope
filter), optional client default charset, and the starting position.
The mysqld handle and the callback are passed separately as the data
they provide. -/
structure Streamer where
  dbname : String
  clientCharset : Option Charset := none
  startPos : Position := []

/-- The local state of `parseEvents`: the pending statement buffer
(`none` models the nil slice), the current format, the most recent GTID
(`none` models the nil interface), the rolling position, and the
autocommit flag. -/
structure ParseState where
  statements : Option (List Statement)
  format : BinlogFormat
  gtid : Option GTID
  pos : Position
  autocommit : Bool
deriving DecidableEq, Repr

/-- Initial `parseEvents` state: nil buffer, zero format, nil GTID,
position from `bls.startPos`, autocommit on. -/
def initState (bls : Streamer) : ParseState :=
  { statements := none
    format := { formatVersion := 0 }
    gtid := none
    pos := bls.startPos
    autocommit := true }

/-- Outcome of processing one event: continue with a new state (plus the
transactions handed to `sendTransaction` during the event), or return
from the loop with a position and an error (`return pos, err`). -/
inductive StepOut where
  | cont (s : ParseState) (emitted : List BinlogTransaction)
  | stop (pos : Position) (e : StreamError) (emitted : List BinlogTransaction)
deriving DecidableEq, Repr

/-- The position an outcome leaves behind: the new state's position, or
the position returned with an error. -/
def StepOut.outPos : StepOut → Position
  | StepOut.cont s _ => s.pos
  | StepOut.stop p _ _ => p

/-- The transactions handed to `sendTransaction` while processing the
event. -/
def StepOut.emitted : StepOut → List BinlogTransaction
  | StepOut.cont _ em => em
  | StepOut.stop _ _ em => em

/-- The `begin()` closure: allocate a fresh statement buffer and clear
autocommit.  (The data-loss log and the `ParseEvents` error-counter bump
on a nested BEGIN have no effect on this state.) -/
def beginTx (s : ParseState) : ParseState :=
  { s with statements := some [], autocommit := false }

/-- The transaction built by the `commit(timestamp)` closure: the
pending statements (a nil buffer becomes the empty list), the
triggering event's timestamp, and the encoded current GTID. -/
def mkTransaction (s : ParseState) (ts : Nat) : BinlogTransaction :=
  { statements := s.statements.getD []
    timestamp := ts
    transactionId := encodeGTID s.gtid }

/-- The `commit(timestamp)` closure: send the transaction; on success
reset the buffer to nil and restore autocommit; map `io.EOF` from the
callback to `ErrClientEOF`; wrap any other send error. -/
def commitStep (send : SendFn) (s : ParseState) (ts : Nat) : StepOut :=
  let t := mkTransaction s ts
  match send t with
  | SendResult.ok => StepOut.cont { s with statements := none, autocommit := true } [t]
  | SendResult.eof => StepOut.stop s.pos StreamError.clientEOF [t]
  | SendResult.err m => StepOut.stop s.pos (StreamError.msg ("send reply error: " ++ m)) [t]

/-- The charset attached to both the synthesized TIMESTAMP statement and
the original statement:
`bls.clientCharset == nil || (q.Charset != nil && *q.Charset != *bls.clientCharset)`
selects the event's charset, otherwise nothing is attached. -/
def attachedCharset (clientCharset qCharset : Option Charset) : Option Charset :=
  if clientCharset = none ∨ (qCharset ≠ none ∧ qCharset ≠ clientCharset) then qCharset
  else none

/-- The QUERY_EVENT arm of the dispatch switch: classify the SQL and
act per category.  `ts` is the event's header timestamp. -/
def handleQuery (bls : Streamer) (send : SendFn) (s : ParseState) (ts : Nat)
    (q : Query) : StepOut :=
  match getStatementCategory q.sql with
  | Category.BL_BEGIN => StepOut.cont (beginTx s) []
  | Category.BL_ROLLBACK =>
      commitStep send { s with statements := none } ts
  | Category.BL_COMMIT => commitStep send s ts
  | cat =>
      if q.database ≠ "" ∧ q.database ≠ bls.dbname then StepOut.cont s []
      else
        let cs := attachedCharset bls.clientCharset q.charset
        let setTimestamp : Statement :=
          { category := Category.BL_SET
            sql := "SET TIMESTAMP=" ++ toString ts
            charset := cs }
        let statement : Statement := { category := cat, sql := q.sql, charset := cs }
        let s1 := { s with
          statements := some (s.statements.getD [] ++ [setTimestamp, statement]) }
        if s1.autocommit then commitStep send s1 ts else StepOut.cont s1 []

/-- GTID absorption (`ev.HasGTID(format)` / `ev.GTID(format)` /
`replication.AppendGTID`): overwrite `gtid` and fold it into `pos`; a
decode failure is fatal. -/
def absorbGTID (s : ParseState) (ev : BinlogEvent) : Except String ParseState :=
  if ev.hasGTID then
    match ev.gtidResult with
    | Except.ok g =>
        Except.ok { s with gtid := some g, pos := AppendGTID s.pos g }
    | Except.error e =>
        Except.error ("can't get GTID from binlog event: " ++ e)
  else Except.ok s

/-- The dispatch switch of `parseEvents` (first match wins): GTID_EVENT,
XID_EVENT, INTVAR_EVENT, RAND_EVENT, QUERY_EVENT, anything else
ignored. -/
def dispatch (bls : Streamer) (send : SendFn) (s : ParseState)
    (ev : BinlogEvent) : StepOut :=
  if ev.isGTID then
    StepOut.cont (if ev.isBeginGTID then beginTx s else s) []
  else if ev.isXID then
    commitStep send s ev.timestamp
  else if ev.isIntVar then
    match ev.intVarResult with
    | Except.ok nv =>
        StepOut.cont { s with statements := some (s.statements.getD [] ++
          [{ category := Category.BL_SET
             sql := "SET " ++ nv.1 ++ "=" ++ toString nv.2 }]) } []
    | Except.error e =>
        StepOut.stop s.pos (StreamError.msg ("can't parse INTVAR_EVENT: " ++ e)) []
  else if ev.isRand then
    match ev.randResult with
    | Except.ok ss =>
        StepOut.cont { s with statements := some (s.statements.getD [] ++
          [{ category := Category.BL_SET
             sql := "SET @@RAND_SEED1=" ++ toString ss.1 ++
               ", @@RAND_SEED2=" ++ toString ss.2 }]) } []
    | Except.error e =>
        StepOut.stop s.pos (StreamError.msg ("can't parse RAND_EVENT: " ++ e)) []
  else if ev.isQuery then
    match ev.queryResult with
    | Except.ok q => handleQuery bls send s ev.timestamp q
    | Except.error e =>
        StepOut.stop s.pos (StreamError.msg ("can't get query from binlog event: " ++ e)) []
  else StepOut.cont s []

/-- The body of the `parseEvents` loop for one received event: validity
check, format discovery, pre-format gate, checksum strip, GTID
absorption, then the dispatch switch. -/
def processEvent (bls : Streamer) (send : SendFn) (s : ParseState)
    (ev : BinlogEvent) : StepOut :=
  if ev.valid = false then
    StepOut.stop s.pos (StreamError.msg "can't parse binlog event, invalid data") []
  else if ev.isFormatDescription then
    match ev.formatResult with
    | Except.ok f => StepOut.cont { s with format := f } []
    | Except.error e =>
        StepOut.stop s.pos (StreamError.msg ("can't parse FORMAT_DESCRIPTION_EVENT: " ++ e)) []
  else if s.format.IsZero then
    if ev.isRotate then StepOut.cont s []
    else StepOut.stop s.pos (StreamError.msg "got a real event before FORMAT_DESCRIPTION_EVENT") []
  else if ev.stripOk = false then
    StepOut.stop s.pos (StreamError.msg "can't strip checksum from binlog event") []
  else
    match absorbGTID s ev with
    | Except.error m => StepOut.stop s.pos (StreamError.msg m) []
    | Except.ok s1 => dispatch bls send s1 ev

/-- Outcome of processing a list of events: still running with the
current state, or stopped by a `return` from the loop.  Either way,
every transaction handed to `sendTransaction` is recorded in order. -/
inductive RunOut where
  | running (s : ParseState) (emitted : List BinlogTransaction)
  | stopped (pos : Position) (e : StreamError) (emitted : List BinlogTransaction)
deriving DecidableEq, Repr

/-- Process events in order until the list is exhausted or the loop
returns. -/
def runEvents (bls : Streamer) (send : SendFn) (s : ParseState) :
    List BinlogEvent → RunOut
  | [] => RunOut.running s []
  | ev :: rest =>
      match processEvent bls send s ev with
      | StepOut.cont s1 em =>
          match runEvents bls send s1 rest with
          | RunOut.running s2 em2 => RunOut.running s2 (em ++ em2)
          | RunOut.stopped p e em2 => RunOut.stopped p e (em ++ em2)
      | StepOut.stop p e em => RunOut.stopped p e em

/-- The state a run is left in, with a fallback for stopped runs. -/
def RunOut.stateD (d : ParseState) : RunOut → ParseState
  | RunOut.running s _ => s
  | RunOut.stopped _ _ _ => d

/-- What `parseEvents` returns: the final position, the error, and (for
the statements of this development) the transactions sent along the
way. -/
structure ParseOut where
  pos : Position
  err : StreamError
  emitted : List BinlogTransaction
deriving DecidableEq, Repr

/-- `parseEvents` over a finite event channel: start from the fresh
local state; if the whole list is consumed the channel has closed and
the loop returns `(pos, ErrServerEOF)`; otherwise it returns what the
loop body returned.  (The cancellation wait source is not modelled.) -/
def parseEvents (bls : Streamer) (send : SendFn)
    (events : List BinlogEvent) : ParseOut :=
  match runEvents bls send (initState bls) events with
  | RunOut.running s em => { pos := s.pos, err := StreamError.serverEOF, emitted := em }
  | RunOut.stopped p e em => { pos := p, err := e, emitted := em }

/-- The deferred wrapper in `Stream`: every non-nil error, the sentinels
included, is replaced by
`fmt.Errorf("stream error @ %v: %v", stopPos, err)`. -/
def streamWrap (stopPos : Position) (e : StreamError) : StreamError :=
  StreamError.msg ("stream error @ " ++ posToString stopPos ++ ": " ++ errMessage e)

/-- `Stream`: charset precheck against the server charset (when the
client declared one), then the parse loop, with the deferred error
wrapper applied to the result.  `serverCharset` stands for what
`bls.conn.GetCharset()` would return.  Connection setup errors and the
nil-error cancellation exit are not modelled; in this model the loop
always ends with a non-nil error, which the deferred function wraps. -/
def Stream (bls : Streamer) (serverCharset : Except String Charset)
    (send : SendFn) (events : List BinlogEvent) : StreamError :=
  match bls.clientCharset with
  | some cc =>
      match serverCharset with
      | Except.error e =>
          streamWrap bls.startPos
            (StreamError.msg ("can't get charset to check binlog stream: " ++ e))
      | Except.ok sc =>
          if sc ≠ cc then
            streamWrap bls.startPos
              (StreamError.msg "binlog stream client charset doesn't match server")
          else
            let r := parseEvents bls send events
            streamWrap r.pos r.err
  | none =>
      let r := parseEvents bls send events
      streamWrap r.pos r.err

/-! Concrete fixtures used by counterexamples and witnesses. -/

/-- A sample MariaDB-flavored GTID. -/
def g1 : GTID := { flavor := "MariaDB", value := "0-1-1" }

/-- A FORMAT_DESCRIPTION_EVENT that decodes to a non-zero format. -/
def fdEvent : BinlogEvent :=
  { isFormatDescription := true
    formatResult := Except.ok { formatVersion := 4 } }

/-- A GTID event carrying `g`, with the dialect begin flag. -/
def gtidEvent (g : GTID) (isBegin : Bool) : BinlogEvent :=
  { hasGTID := true
    gtidResult := Except.ok g
    isGTID := true
    isBeginGTID := isBegin }

/-- A query event with the given database, SQL and timestamp. -/
def queryEvent (db sql : String) (ts : Nat) : BinlogEvent :=
  { isQuery := true
    queryResult := Except.ok { database := db, sql := sql }
    timestamp := ts }

/-- An XID event (commit marker) with the given timestamp. -/
def xidEvent (ts : Nat) : BinlogEvent :=
  { isXID := true, timestamp := ts }

/-- An INTVAR event that decodes to `INSERT_ID = 5`. -/
def intVarEvent : BinlogEvent :=
  { isIntVar := true, intVarResult := Except.ok ("INSERT_ID", 5) }

/-- A consumer that accepts every transaction. -/
def sendOk : SendFn := fun _ => SendResult.ok

/-- A consumer that reports end-of-stream (`io.EOF`) on every call. -/
def sendEof : SendFn := fun _ => SendResult.eof

/-- A streamer configured for database `targetdb`, no client charset,
empty start position. -/
def targetCfg : Streamer := { dbname := "targetdb" }

/-- The spec's scenario 1 event list: FORMAT_DESC; GTID(g1);
QUERY(db=targetdb, sql="insert into t values(1)", ts=100);
XID(ts=100). -/
def scenario1Events : List BinlogEvent :=
  [fdEvent, gtidEvent g1 false,
   queryEvent "targetdb" "insert into t values(1)" 100,
   xidEvent 100]

/-- A (fake) rotate event, as the master sends before format
discovery. -/
def rotateEvent : BinlogEvent := { isRotate := true }

/-- A RAND event that decodes to seeds 11 and 22. -/
def randEvent : BinlogEvent :=
  { isRand := true, randResult := Except.ok (11, 22) }

/-- A rollback query on the connection's default database. -/
def rollbackQuery : Query := { database := "", sql := "rollback" }

/-- A mid-transaction assembler state: one buffered DML, non-zero
format, GTID `g1` already folded into the position, autocommit off. -/
def sW : ParseState :=
  { statements := some [{ category := Category.BL_DML, sql := "insert into t values(1)" }]
    format := { formatVersion := 4 }
    gtid := some g1
    pos := [g1]
    autocommit := false }

/-- An idle assembler state in autocommit mode: nil buffer, non-zero
format, GTID `g1` already folded into the position. -/
def sA : ParseState :=
  { statements := none
    format := { formatVersion := 4 }
    gtid := some g1
    pos := [g1]
    autocommit := true }

/-- A streamer whose client declared charset (1,2,3). -/
def csCfg : Streamer :=
  { dbname := "targetdb", clientCharset := some { client := 1, conn := 2, server := 3 } }

/-- A DML query event payload carrying charset (4,5,6). -/
def csQuery : Query :=
  { database := ""
    charset := some { client := 4, conn := 5, server := 6 }
    sql := "insert into t values(1)" }

/-! Helper lemmas about the assembler steps. -/

theorem getLast?_AppendGTID (l : Position) (g : GTID) :
    (AppendGTID l g).getLast? = some g := by
  unfold AppendGTID
  induction l with
  | nil => rfl
  | cons a l ih =>
      rw [List.append]
      rw [List.getLast?_cons]
      rw [ih]
      cases l <;> rfl

theorem commitStep_outPos (send : SendFn) (s : ParseState) (ts : Nat) :
    (commitStep send s ts).outPos = s.pos := by
  unfold commitStep
  cases h : send (mkTransaction s ts) <;> simp [h, StepOut.outPos]

theorem commitStep_emitted (send : SendFn) (s : ParseState) (ts : Nat) :
    (commitStep send s ts).emitted = [mkTransaction s ts] := by
  unfold commitStep
  cases h : send (mkTransaction s ts) <;> simp [h, StepOut.emitted]

theorem commitStep_eq_ok (send : SendFn) (s : ParseState) (ts : Nat)
    (hs : send (mkTransaction s ts) = SendResult.ok) :
    commitStep send s ts =
      StepOut.cont { s with statements := none, autocommit := true }
        [mkTransaction s ts] := by
  simp only [commitStep, hs]

theorem commitStep_eq_eof (send : SendFn) (s : ParseState) (ts : Nat)
    (hs : send (mkTransaction s ts) = SendResult.eof) :
    commitStep send s ts =
      StepOut.stop s.pos StreamError.clientEOF [mkTransaction s ts] := by
  simp only [commitStep, hs]

theorem commitStep_eq_err (send : SendFn) (s : ParseState) (ts : Nat) (m : String)
    (hs : send (mkTransaction s ts) = SendResult.err m) :
    commitStep send s ts =
      StepOut.stop s.pos (StreamError.msg ("send reply error: " ++ m))
        [mkTransaction s ts] := by
  simp only [commitStep, hs]

theorem commitStep_cont_autocommit (send : SendFn) (s s1 : ParseState) (ts : Nat)
    (em : List BinlogTransaction)
    (h : commitStep send s ts = StepOut.cont s1 em) : s1.autocommit = true := by
  cases hs : send (mkTransaction s ts)
  · rw [commitStep_eq_ok send s ts hs] at h
    injection h with h1 h2
    rw [← h1]
  · rw [commitStep_eq_eof send s ts hs] at h
    cases h
  · rw [commitStep_eq_err send s ts _ hs] at h
    cases h

theorem handleQuery_outPos (bls : Streamer) (send : SendFn) (s : ParseState)
    (ts : Nat) (q : Query) : (handleQuery bls send s ts q).outPos = s.pos := by
  cases hcat : getStatementCategory q.sql
  all_goals simp only [handleQuery, hcat]
  case BL_BEGIN => rfl
  case BL_COMMIT => exact commitStep_outPos send s ts
  case BL_ROLLBACK => exact commitStep_outPos send { s with statements := none } ts
  all_goals
    by_cases hdb : q.database ≠ "" ∧ q.database ≠ bls.dbname
  all_goals
    first
    | (rw [if_pos hdb]; rfl)
    | (rw [if_neg hdb]
       by_cases hac : s.autocommit = true
       · rw [if_pos hac]
         exact commitStep_outPos send _ ts
       · rw [if_neg hac]
         rfl)

theorem handleQuery_emitted_id (bls : Streamer) (send : SendFn) (s : ParseState)
    (ts : Nat) (q : Query) :
    ∀ t ∈ (handleQuery bls send s ts q).emitted,
      t.transactionId = encodeGTID s.gtid := by
  cases hcat : getStatementCategory q.sql
  all_goals simp only [handleQuery, hcat]
  case BL_BEGIN => intro t ht; cases ht
  case BL_COMMIT =>
    rw [commitStep_emitted send s ts]
    intro t ht
    rw [List.mem_singleton] at ht
    rw [ht]
    rfl
  case BL_ROLLBACK =>
    rw [commitStep_emitted send { s with statements := none } ts]
    intro t ht
    rw [List.mem_singleton] at ht
    rw [ht]
    rfl
  all_goals
    by_cases hdb : q.database ≠ "" ∧ q.database ≠ bls.dbname
  all_goals
    first
    | (rw [if_pos hdb]; intro t ht; cases ht)
    | (rw [if_neg hdb]
       by_cases hac : s.autocommit = true
       · rw [if_pos hac]
         rw [commitStep_emitted send _ ts]
         intro t ht
         rw [List.mem_singleton] at ht
         rw [ht]
         rfl
       · rw [if_neg hac]
         intro t ht
         cases ht)

theorem dispatch_outPos (bls : Streamer) (send : SendFn) (s : ParseState)
    (ev : BinlogEvent) : (dispatch bls send s ev).outPos = s.pos := by
  unfold dispatch
  by_cases hg : ev.isGTID = true
  · rw [if_pos hg]
    by_cases hb : ev.isBeginGTID = true
    · rw [if_pos hb]; rfl
    · rw [if_neg hb]; rfl
  rw [if_neg hg]
  by_cases hx : ev.isXID = true
  · rw [if_pos hx]
    exact commitStep_outPos send s ev.timestamp
  rw [if_neg hx]
  by_cases hi : ev.isIntVar = true
  · rw [if_pos hi]
    cases ev.intVarResult <;> rfl
  rw [if_neg hi]
  by_cases hr : ev.isRand = true
  · rw [if_pos hr]
    cases ev.randResult <;> rfl
  rw [if_neg hr]
  by_cases hq : ev.isQuery = true
  · rw [if_pos hq]
    cases ev.queryResult with
    | ok q => exact handleQuery_outPos bls send s ev.timestamp q
    | error e => rfl
  rw [if_neg hq]
  rfl

theorem dispatch_emitted_id (bls : Streamer) (send : SendFn) (s : ParseState)
    (ev : BinlogEvent) :
    ∀ t ∈ (dispatch bls send s ev).emitted,
      t.transactionId = encodeGTID s.gtid := by
  unfold dispatch
  by_cases hg : ev.isGTID = true
  · rw [if_pos hg]
    intro t ht
    cases ht
  rw [if_neg hg]
  by_cases hx : ev.isXID = true
  · rw [if_pos hx]
    rw [commitStep_emitted send s ev.timestamp]
    intro t ht
    rw [List.mem_singleton] at ht
    rw [ht]
    rfl
  rw [if_neg hx]
  by_cases hi : ev.isIntVar = true
  · rw [if_pos hi]
    cases ev.intVarResult <;> intro t ht <;> cases ht
  rw [if_neg hi]
  by_cases hr : ev.isRand = true
  · rw [if_pos hr]
    cases ev.randResult <;> intro t ht <;> cases ht
  rw [if_neg hr]
  by_cases hq : ev.isQuery = true
  · rw [if_pos hq]
    cases ev.queryResult with
    | ok q => exact handleQuery_emitted_id bls send s ev.timestamp q
    | error e => intro t ht; cases ht
  rw [if_neg hq]
  intro t ht
  cases ht

theorem handleQuery_cont_pending (bls : Streamer) (send : SendFn) (s : ParseState)
    (ts : Nat) (q : Query) (s1 : ParseState) (em : List BinlogTransaction)
    (h : handleQuery bls send s ts q = StepOut.cont s1 em)
    (hp : s.autocommit = false → s.statements ≠ none) :
    s1.autocommit = false → s1.statements ≠ none := by
  cases hcat : getStatementCategory q.sql
  all_goals simp only [handleQuery, hcat] at h
  case BL_BEGIN =>
    injection h with h1 h2
    rw [← h1]
    intro _
    simp [beginTx]
  case BL_COMMIT =>
    intro ha
    rw [commitStep_cont_autocommit send s s1 ts em h] at ha
    simp at ha
  case BL_ROLLBACK =>
    intro ha
    rw [commitStep_cont_autocommit send _ s1 ts em h] at ha
    simp at ha
  all_goals
    split at h
  all_goals
    first
    | (injection h with h1 h2
       rw [← h1]
       first
       | exact hp
       | (intro _; simp))
    | (intro ha
       rw [commitStep_cont_autocommit send _ s1 ts em h] at ha
       simp at ha)
    | (split at h
       · intro ha
         rw [commitStep_cont_autocommit send _ s1 ts em h] at ha
         simp at ha
       · injection h with h1 h2
         rw [← h1]
         intro _
         simp)

theorem dispatch_cont_pending (bls : Streamer) (send : SendFn) (s : ParseState)
    (ev : BinlogEvent) (s1 : ParseState) (em : List BinlogTransaction)
    (h : dispatch bls send s ev = StepOut.cont s1 em)
    (hp : s.autocommit = false → s.statements ≠ none) :
    s1.autocommit = false → s1.statements ≠ none := by
  unfold dispatch at h
  split at h
  · injection h with h1 h2
    split at h1
    · rw [← h1]
      intro _
      simp [beginTx]
    · rw [← h1]
      exact hp
  split at h
  · intro ha
    rw [commitStep_cont_autocommit send s s1 ev.timestamp em h] at ha
    simp at ha
  split at h
  · split at h
    · injection h with h1 h2
      rw [← h1]
      intro _
      simp
    · cases h
  split at h
  · split at h
    · injection h with h1 h2
      rw [← h1]
      intro _
      simp
    · cases h
  split at h
  · split at h
    · exact handleQuery_cont_pending bls send s ev.timestamp _ s1 em h hp
    · cases h
  injection h with h1 h2
  rw [← h1]
  exact hp

theorem processEvent_cont_pending (bls : Streamer) (send : SendFn) (s : ParseState)
    (ev : BinlogEvent) (s1 : ParseState) (em : List BinlogTransaction)
    (h : processEvent bls send s ev = StepOut.cont s1 em)
    (hp : s.autocommit = false → s.statements ≠ none) :
    s1.autocommit = false → s1.statements ≠ none := by
  unfold processEvent at h
  split at h
  · cases h
  split at h
  · split at h
    · injection h with h1 h2
      rw [← h1]
      exact hp
    · cases h
  split at h
  · split at h
    · injection h with h1 h2
      rw [← h1]
      exact hp
    · cases h
  split at h
  · cases h
  split at h
  · cases h
  case _ s2 habs =>
    have hsame : s2.autocommit = s.autocommit ∧ s2.statements = s.statements := by
      unfold absorbGTID at habs
      split at habs
      · split at habs
        · injection habs with h2
          rw [← h2]
          exact ⟨rfl, rfl⟩
        · cases habs
      · injection habs with h2
        rw [← h2]
        exact ⟨rfl, rfl⟩
    refine dispatch_cont_pending bls send s2 ev s1 em h ?_
    rw [hsame.1, hsame.2]
    exact hp

theorem absorbGTID_ok (s : ParseState) (ev : BinlogEvent) (s2 : ParseState)
    (h : absorbGTID s ev = Except.ok s2) :
    (s2 = s ∧ ev.hasGTID = false) ∨
    ∃ g, ev.hasGTID = true ∧ ev.gtidResult = Except.ok g ∧
      s2 = { s with gtid := some g, pos := AppendGTID s.pos g } := by
  unfold absorbGTID at h
  split at h
  · split at h
    · injection h with h1
      next g heq =>
        refine Or.inr ⟨g, by assumption, heq, h1.symm⟩
    · cases h
  · injection h with h1
    next hg =>
      refine Or.inl ⟨h1.symm, by simpa using hg⟩

theorem processEvent_cases (bls : Streamer) (send : SendFn) (s : ParseState)
    (ev : BinlogEvent) :
    (∃ e, processEvent bls send s ev = StepOut.stop s.pos e []) ∨
    (∃ f, processEvent bls send s ev = StepOut.cont { s with format := f } []) ∨
    (processEvent bls send s ev = StepOut.cont s []) ∨
    (processEvent bls send s ev = dispatch bls send s ev ∧ ev.hasGTID = false) ∨
    (∃ g, ev.hasGTID = true ∧ ev.gtidResult = Except.ok g ∧
      processEvent bls send s ev =
        dispatch bls send { s with gtid := some g, pos := AppendGTID s.pos g } ev) := by
  unfold processEvent
  split
  · exact Or.inl ⟨_, rfl⟩
  split
  · split
    · exact Or.inr (Or.inl ⟨_, rfl⟩)
    · exact Or.inl ⟨_, rfl⟩
  split
  · split
    · exact Or.inr (Or.inr (Or.inl rfl))
    · exact Or.inl ⟨_, rfl⟩
  split
  · exact Or.inl ⟨_, rfl⟩
  split
  next m habs => exact Or.inl ⟨_, rfl⟩
  next s2 habs =>
    rcases absorbGTID_ok s ev s2 habs with ⟨rfl, hG⟩ | ⟨g, hg, hres, rfl⟩
    · exact Or.inr (Or.inr (Or.inr (Or.inl ⟨rfl, hG⟩)))
    · exact Or.inr (Or.inr (Or.inr (Or.inr ⟨g, hg, hres, rfl⟩)))

/-! The claims. -/

/-- C1 counterexample: with a consumer that reports end-of-stream,
`Stream` does not return the `ErrClientEOF` sentinel value-comparably;
the deferred wrapper turns it into a `stream error @ <position>:`
string. -/
theorem C1_counterexample :
    Stream targetCfg (Except.ok { client := 33, conn := 33, server := 33 }) sendEof
        [fdEvent, xidEvent 7] =
      StreamError.msg "stream error @ : binlog stream consumer ended the reply stream" ∧
    Stream targetCfg (Except.ok { client := 33, conn := 33, server := 33 }) sendEof
        [fdEvent, xidEvent 7] ≠ StreamError.clientEOF := by
  decide

/-- C1 (amended): `parseEvents` terminates with the value-comparable
sentinel `ErrServerEOF` when the event channel closes, the commit step
terminates with the value-comparable sentinel `ErrClientEOF` exactly
when `sendTransaction` reports end-of-stream, and `Stream` wraps every
error — the sentinels included — into a descriptive string prefixed
with `stream error @ <position>:`. -/
theorem C1_amended_theorem :
    (∀ (bls : Streamer) (send : SendFn) (events : List BinlogEvent)
        (s : ParseState) (em : List BinlogTransaction),
        runEvents bls send (initState bls) events = RunOut.running s em →
        parseEvents bls send events =
          { pos := s.pos, err := StreamError.serverEOF, emitted := em })
    ∧ (∀ (send : SendFn) (s : ParseState) (ts : Nat),
        send (mkTransaction s ts) = SendResult.eof →
        commitStep send s ts =
          StepOut.stop s.pos StreamError.clientEOF [mkTransaction s ts])
    ∧ (∀ (p : Position) (e : StreamError),
        ∃ rest, streamWrap p e = StreamError.msg ("stream error @ " ++ rest)) := by
  refine ⟨?_, ?_, ?_⟩
  · intro bls send events s em h
    unfold parseEvents
    rw [h]
  · intro send s ts hs
    exact commitStep_eq_eof send s ts hs
  · intro p e
    refine ⟨posToString p ++ (": " ++ errMessage e), ?_⟩
    unfold streamWrap
    rw [String.append_assoc, String.append_assoc]

/-- C1 witness: the amended statement at concrete inputs — an
exhausted channel yields `ErrServerEOF`, an end-of-stream consumer
makes the commit step stop with `ErrClientEOF`, and the wrapper
prefixes the client sentinel. -/
theorem C1_witness :
    parseEvents targetCfg sendOk [] =
      { pos := (initState targetCfg).pos
        err := StreamError.serverEOF
        emitted := [] } ∧
    commitStep sendEof (initState targetCfg) 7 =
      StepOut.stop (initState targetCfg).pos StreamError.clientEOF
        [mkTransaction (initState targetCfg) 7] ∧
    ∃ rest, streamWrap [] StreamError.clientEOF =
      StreamError.msg ("stream error @ " ++ rest) :=
  ⟨C1_amended_theorem.1 targetCfg sendOk [] (initState targetCfg) [] rfl,
   C1_amended_theorem.2.1 sendEof (initState targetCfg) 7 rfl,
   C1_amended_theorem.2.2 [] StreamError.clientEOF⟩

/-- C2 counterexample: after FORMAT_DESC followed by an INTVAR event in
autocommit mode, the pending buffer is non-absent while `autocommit` is
still true, so the claimed equivalence fails between processed
events. -/
theorem C2_counterexample :
    ¬(((runEvents targetCfg sendOk (initState targetCfg)
          [fdEvent, intVarEvent]).stateD (initState targetCfg)).statements ≠ none ↔
      ((runEvents targetCfg sendOk (initState targetCfg)
          [fdEvent, intVarEvent]).stateD (initState targetCfg)).autocommit = false) := by
  decide

/-- C2 (amended): one direction of the claimed invariant holds at every
point between processed events — whenever `autocommit` is false the
pending buffer is non-absent — and every event-handling arm preserves
it; the converse direction is broken by the INTVAR/RAND arms, which
append to the buffer without touching `autocommit`. -/
theorem C2_amended_theorem (bls : Streamer) (send : SendFn) (s : ParseState)
    (ev : BinlogEvent) (s1 : ParseState) (em : List BinlogTransaction)
    (h : processEvent bls send s ev = StepOut.cont s1 em)
    (hp : s.autocommit = false → s.statements ≠ none) :
    s1.autocommit = false → s1.statements ≠ none :=
  processEvent_cont_pending bls send s ev s1 em h hp

/-- C2 witness: the amended invariant-preservation applied to the
mid-transaction state and a BEGIN query event. -/
theorem C2_witness :
    processEvent targetCfg sendOk sW (queryEvent "" "begin" 3) =
      StepOut.cont (beginTx sW) [] ∧
    ((beginTx sW).autocommit = false → (beginTx sW).statements ≠ none) :=
  ⟨by decide,
   C2_amended_theorem targetCfg sendOk sW (queryEvent "" "begin" 3) (beginTx sW) []
     (by decide) (by decide)⟩

/-- C3 counterexample: on the spec's scenario-1 event list the parser
does not emit exactly one transaction. -/
theorem C3_counterexample :
    (parseEvents targetCfg sendOk scenario1Events).emitted.length ≠ 1 := by
  decide

/-- C3 (amended): on FORMAT_DESC; GTID(g1); QUERY(db=targetdb,
sql="insert into t values(1)", ts=100); XID(ts=100) exactly two
transactions are emitted: first the autocommit transaction with
statements [(SET, "SET TIMESTAMP=100"), (DML, "insert into t
values(1)")], then an empty transaction from the XID; both carry
timestamp 100 and transaction id serialize(g1). -/
theorem C3_amended_theorem :
    parseEvents targetCfg sendOk scenario1Events =
      { pos := [g1]
        err := StreamError.serverEOF
        emitted :=
          [{ statements :=
               [{ category := Category.BL_SET, sql := "SET TIMESTAMP=100" },
                { category := Category.BL_DML, sql := "insert into t values(1)" }]
             timestamp := 100
             transactionId := serializeGTID g1 },
           { statements := [], timestamp := 100, transactionId := serializeGTID g1 }] } := by
  decide

/-- C4 counterexample: on a SQL string whose first token is ended by a
tab, the classifier disagrees with the spec's "first
whitespace-delimited token" reading — the code only splits at a space
byte. -/
theorem C4_counterexample :
    getStatementCategory "insert\tinto t values (1)" ≠
      specGetCategoryWhitespace "insert\tinto t values (1)" := by
  decide

/-- C4 (amended): for every SQL string, the classifier takes the
characters before the first space character (not any whitespace),
lowercases them, and looks the token up in the fixed prefix table, with
absent tokens classifying as UNRECOGNIZED. -/
theorem C4_amended_theorem (sql : String) :
    getStatementCategory sql = specGetCategorySpace sql :=
  find?_statementPrefixes
    (String.mk ((sql.data.takeWhile fun c => c != ' ').map Char.toLower))

/-- C5: when a query event classifies as ROLLBACK, the pending buffer
is discarded and a transaction with an empty statement list is still
handed to the consumer, carrying the rollback event's timestamp and the
serialization of the current GTID as its transaction id; on a
successful send the buffer stays nil and autocommit is restored. -/
theorem C5_theorem (bls : Streamer) (send : SendFn) (s : ParseState) (ts : Nat)
    (q : Query) (hr : getStatementCategory q.sql = Category.BL_ROLLBACK) :
    (handleQuery bls send s ts q).emitted =
      [{ statements := [], timestamp := ts, transactionId := encodeGTID s.gtid }]
    ∧ (send { statements := [], timestamp := ts, transactionId := encodeGTID s.gtid } =
         SendResult.ok →
       handleQuery bls send s ts q =
         StepOut.cont { s with statements := none, autocommit := true }
           [{ statements := [], timestamp := ts, transactionId := encodeGTID s.gtid }]) := by
  constructor
  · simp only [handleQuery, hr]
    rw [commitStep_emitted send { s with statements := none } ts]
    rfl
  · intro hsend
    simp only [handleQuery, hr]
    rw [commitStep_eq_ok send { s with statements := none } ts hsend]
    rfl

/-- C5 witness: the rollback emission at a concrete mid-transaction
state with a buffered DML. -/
theorem C5_witness :
    (handleQuery targetCfg sendOk sW 6 rollbackQuery).emitted =
      [{ statements := [], timestamp := 6, transactionId := encodeGTID sW.gtid }]
    ∧ (sendOk { statements := [], timestamp := 6, transactionId := encodeGTID sW.gtid } =
         SendResult.ok →
       handleQuery targetCfg sendOk sW 6 rollbackQuery =
         StepOut.cont { sW with statements := none, autocommit := true }
           [{ statements := [], timestamp := 6, transactionId := encodeGTID sW.gtid }]) :=
  C5_theorem targetCfg sendOk sW 6 rollbackQuery (by decide)

/-- C6: while the format is still zero, a valid rotate event is
silently ignored, any other valid non-FORMAT_DESCRIPTION event makes
the loop return a fatal error, and a FORMAT_DESCRIPTION event that
decodes is folded into the format with nothing emitted. -/
theorem C6_theorem (bls : Streamer) (send : SendFn) (s : ParseState)
    (ev : BinlogEvent) (hz : s.format.IsZero = true) (hv : ev.valid = true) :
    (∀ f, ev.isFormatDescription = true → ev.formatResult = Except.ok f →
      processEvent bls send s ev = StepOut.cont { s with format := f } [])
    ∧ (ev.isFormatDescription = false → ev.isRotate = true →
      processEvent bls send s ev = StepOut.cont s [])
    ∧ (ev.isFormatDescription = false → ev.isRotate = false →
      processEvent bls send s ev =
        StepOut.stop s.pos
          (StreamError.msg "got a real event before FORMAT_DESCRIPTION_EVENT") []) := by
  refine ⟨?_, ?_, ?_⟩
  · intro f hfd hres
    simp [processEvent, hv, hfd, hres]
  · intro hfd hrot
    simp [processEvent, hv, hfd, hz, hrot]
  · intro hfd hrot
    simp [processEvent, hv, hfd, hz, hrot]

/-- C6 witness: the pre-format gate at the initial state, on a format
event, a rotate event and an XID event. -/
theorem C6_witness :
    processEvent targetCfg sendOk (initState targetCfg) fdEvent =
      StepOut.cont { initState targetCfg with format := { formatVersion := 4 } } [] ∧
    processEvent targetCfg sendOk (initState targetCfg) rotateEvent =
      StepOut.cont (initState targetCfg) [] ∧
    processEvent targetCfg sendOk (initState targetCfg) (xidEvent 7) =
      StepOut.stop (initState targetCfg).pos
        (StreamError.msg "got a real event before FORMAT_DESCRIPTION_EVENT") [] :=
  ⟨(C6_theorem targetCfg sendOk (initState targetCfg) fdEvent rfl rfl).1
      { formatVersion := 4 } rfl rfl,
   (C6_theorem targetCfg sendOk (initState targetCfg) rotateEvent rfl rfl).2.1 rfl rfl,
   (C6_theorem targetCfg sendOk (initState targetCfg) (xidEvent 7) rfl rfl).2.2 rfl rfl⟩

/-- C7: on every ingested event the position is either unchanged or the
prior position with the event's GTID appended, and every transaction
emitted while processing the event carries as transaction id the
serialized form of the GTID most recently folded into the position at
emit time (the empty id occurring only before any GTID was folded). -/
theorem C7_theorem (bls : Streamer) (send : SendFn) (s : ParseState)
    (ev : BinlogEvent)
    (hinv : ∀ g, s.gtid = some g → s.pos.getLast? = some g) :
    ((processEvent bls send s ev).outPos = s.pos ∨
      ∃ g, ev.hasGTID = true ∧ ev.gtidResult = Except.ok g ∧
        (processEvent bls send s ev).outPos = AppendGTID s.pos g)
    ∧ ∀ t ∈ (processEvent bls send s ev).emitted,
        t.transactionId = "" ∨
        ∃ g, t.transactionId = serializeGTID g ∧
          (processEvent bls send s ev).outPos.getLast? = some g := by
  rcases processEvent_cases bls send s ev with
    ⟨e, h⟩ | ⟨f, h⟩ | h | ⟨h, hG⟩ | ⟨g, hg, hres, h⟩
  · rw [h]
    exact ⟨Or.inl rfl, by intro t ht; cases ht⟩
  · rw [h]
    exact ⟨Or.inl rfl, by intro t ht; cases ht⟩
  · rw [h]
    exact ⟨Or.inl rfl, by intro t ht; cases ht⟩
  · rw [h]
    refine ⟨Or.inl (dispatch_outPos bls send s ev), ?_⟩
    intro t ht
    have hid := dispatch_emitted_id bls send s ev t ht
    cases hgt : s.gtid with
    | none =>
        rw [hgt] at hid
        exact Or.inl hid
    | some g =>
        rw [hgt] at hid
        refine Or.inr ⟨g, hid, ?_⟩
        rw [dispatch_outPos bls send s ev]
        exact hinv g hgt
  · rw [h]
    refine ⟨Or.inr ⟨g, hg, hres, dispatch_outPos bls send _ ev⟩, ?_⟩
    intro t ht
    have hid := dispatch_emitted_id bls send _ ev t ht
    refine Or.inr ⟨g, hid, ?_⟩
    rw [dispatch_outPos bls send _ ev]
    exact getLast?_AppendGTID s.pos g

/-- C7 witness: the position/id invariant applied at the initial state
to a GTID event carrying `g1`. -/
theorem C7_witness :
    ((processEvent targetCfg sendOk (initState targetCfg) (gtidEvent g1 false)).outPos =
        (initState targetCfg).pos ∨
      ∃ g, (gtidEvent g1 false).hasGTID = true ∧
        (gtidEvent g1 false).gtidResult = Except.ok g ∧
        (processEvent targetCfg sendOk (initState targetCfg) (gtidEvent g1 false)).outPos =
          AppendGTID (initState targetCfg).pos g)
    ∧ ∀ t ∈ (processEvent targetCfg sendOk (initState targetCfg)
        (gtidEvent g1 false)).emitted,
        t.transactionId = "" ∨
        ∃ g, t.transactionId = serializeGTID g ∧
          (processEvent targetCfg sendOk (initState targetCfg)
            (gtidEvent g1 false)).outPos.getLast? = some g :=
  C7_theorem targetCfg sendOk (initState targetCfg) (gtidEvent g1 false)
    (fun g h => nomatch h)

/-- C8: in the non-filtered default query arm the synthesized TIMESTAMP
statement and the original statement both carry `attachedCharset`, in
the explicit-transaction path (they are appended to the pending buffer)
as well as in the autocommit path (they form the statements of the
immediately committed transaction); `attachedCharset` is the event
charset when the client declared none or when the event charset differs
from the client's, and nothing when they are equal. -/
theorem C8_theorem (bls : Streamer) (send : SendFn) (s : ParseState) (ts : Nat)
    (q : Query)
    (hb : getStatementCategory q.sql ≠ Category.BL_BEGIN)
    (hc : getStatementCategory q.sql ≠ Category.BL_COMMIT)
    (hr : getStatementCategory q.sql ≠ Category.BL_ROLLBACK)
    (hdb : q.database = "" ∨ q.database = bls.dbname) :
    (s.autocommit = false →
      handleQuery bls send s ts q =
        StepOut.cont
          { s with statements := some (s.statements.getD [] ++
              [{ category := Category.BL_SET
                 sql := "SET TIMESTAMP=" ++ toString ts
                 charset := attachedCharset bls.clientCharset q.charset },
               { category := getStatementCategory q.sql
                 sql := q.sql
                 charset := attachedCharset bls.clientCharset q.charset }]) } [])
    ∧ (s.autocommit = true →
      (handleQuery bls send s ts q).emitted =
        [{ statements := s.statements.getD [] ++
             [{ category := Category.BL_SET
                sql := "SET TIMESTAMP=" ++ toString ts
                charset := attachedCharset bls.clientCharset q.charset },
              { category := getStatementCategory q.sql
                sql := q.sql
                charset := attachedCharset bls.clientCharset q.charset }]
           timestamp := ts
           transactionId := encodeGTID s.gtid }])
    ∧ (∀ c1 c2 : Charset, c2 ≠ c1 → attachedCharset (some c1) (some c2) = some c2)
    ∧ (∀ c : Charset, attachedCharset (some c) (some c) = none)
    ∧ (∀ qc, attachedCharset none qc = qc) := by
  have hdbn : ¬(q.database ≠ "" ∧ q.database ≠ bls.dbname) := by
    rcases hdb with h | h
    · exact fun hh => hh.1 h
    · exact fun hh => hh.2 h
  refine ⟨?_, ?_, ?_, ?_, ?_⟩
  · intro hac
    cases hcat : getStatementCategory q.sql
    case BL_BEGIN => exact absurd hcat hb
    case BL_COMMIT => exact absurd hcat hc
    case BL_ROLLBACK => exact absurd hcat hr
    all_goals
      simp only [handleQuery, hcat]
    all_goals
      rw [if_neg hdbn, if_neg (by simp [hac])]
  · intro hac
    cases hcat : getStatementCategory q.sql
    case BL_BEGIN => exact absurd hcat hb
    case BL_COMMIT => exact absurd hcat hc
    case BL_ROLLBACK => exact absurd hcat hr
    all_goals
      simp only [handleQuery, hcat]
    all_goals
      rw [if_neg hdbn, if_pos hac, commitStep_emitted]
    all_goals
      rfl
  · intro c1 c2 hne
    unfold attachedCharset
    rw [if_pos (Or.inr ⟨by simp, by simpa using hne⟩)]
  · intro c
    unfold attachedCharset
    rw [if_neg]
    intro hcontra
    rcases hcontra with h | ⟨h1, h2⟩
    · cases h
    · exact h2 rfl
  · intro qc
    unfold attachedCharset
    rw [if_pos (Or.inl rfl)]

/-- C8 witness: charset attachment at a concrete client charset (1,2,3)
and event charset (4,5,6) — on a mid-transaction state the pair is
appended to the buffer, on an autocommit state the pair forms the
emitted transaction, and the mismatching charsets attach
concretely. -/
theorem C8_witness :
    handleQuery csCfg sendOk sW 9 csQuery =
      StepOut.cont
        { sW with statements := some (sW.statements.getD [] ++
            [{ category := Category.BL_SET
               sql := "SET TIMESTAMP=" ++ toString 9
               charset := attachedCharset csCfg.clientCharset csQuery.charset },
             { category := getStatementCategory csQuery.sql
               sql := csQuery.sql
               charset := attachedCharset csCfg.clientCharset csQuery.charset }]) } []
    ∧ (handleQuery csCfg sendOk sA 9 csQuery).emitted =
        [{ statements := sA.statements.getD [] ++
             [{ category := Category.BL_SET
                sql := "SET TIMESTAMP=" ++ toString 9
                charset := attachedCharset csCfg.clientCharset csQuery.charset },
              { category := getStatementCategory csQuery.sql
                sql := csQuery.sql
                charset := attachedCharset csCfg.clientCharset csQuery.charset }]
           timestamp := 9
           transactionId := encodeGTID sA.gtid }]
    ∧ attachedCharset (some { client := 1, conn := 2, server := 3 })
        (some { client := 4, conn := 5, server := 6 }) =
        some { client := 4, conn := 5, server := 6 } :=
  ⟨(C8_theorem csCfg sendOk sW 9 csQuery (by decide) (by decide) (by decide)
      (Or.inl rfl)).1 rfl,
   (C8_theorem csCfg sendOk sA 9 csQuery (by decide) (by decide) (by decide)
      (Or.inl rfl)).2.1 rfl,
   (C8_theorem csCfg sendOk sA 9 csQuery (by decide) (by decide) (by decide)
      (Or.inl rfl)).2.2.1 { client := 1, conn := 2, server := 3 }
      { client := 4, conn := 5, server := 6 } (by decide)⟩

/-- C9: for a query event whose database is non-empty and differs from
the configured dbname, every statement inside any transaction emitted
while handling the event was already in the prior pending buffer, and
in the default arm the event is skipped entirely (state unchanged,
nothing emitted). -/
theorem C9_theorem (bls : Streamer) (send : SendFn) (s : ParseState) (ts : Nat)
    (q : Query) (h1 : q.database ≠ "") (h2 : q.database ≠ bls.dbname) :
    (∀ t ∈ (handleQuery bls send s ts q).emitted,
      ∀ st ∈ t.statements, st ∈ s.statements.getD [])
    ∧ (getStatementCategory q.sql ≠ Category.BL_BEGIN →
       getStatementCategory q.sql ≠ Category.BL_COMMIT →
       getStatementCategory q.sql ≠ Category.BL_ROLLBACK →
       handleQuery bls send s ts q = StepOut.cont s []) := by
  constructor
  · cases hcat : getStatementCategory q.sql
    all_goals simp only [handleQuery, hcat]
    case BL_BEGIN => intro t ht; cases ht
    case BL_COMMIT =>
      rw [commitStep_emitted send s ts]
      intro t ht
      rw [List.mem_singleton] at ht
      rw [ht]
      intro st hst
      exact hst
    case BL_ROLLBACK =>
      rw [commitStep_emitted send { s with statements := none } ts]
      intro t ht
      rw [List.mem_singleton] at ht
      rw [ht]
      intro st hst
      cases hst
    all_goals
      rw [if_pos ⟨h1, h2⟩]
    all_goals
      intro t ht; cases ht
  · intro hb hc hr
    cases hcat : getStatementCategory q.sql
    case BL_BEGIN => exact absurd hcat hb
    case BL_COMMIT => exact absurd hcat hc
    case BL_ROLLBACK => exact absurd hcat hr
    all_goals simp only [handleQuery, hcat]
    all_goals rw [if_pos ⟨h1, h2⟩]

/-- C9 witness: a cross-database insert is skipped entirely. -/
theorem C9_witness :
    (∀ t ∈ (handleQuery targetCfg sendOk sW 7
        { database := "other", sql := "insert into t values(1)" }).emitted,
      ∀ st ∈ t.statements, st ∈ sW.statements.getD [])
    ∧ (getStatementCategory
         (Query.sql { database := "other", sql := "insert into t values(1)" }) ≠
           Category.BL_BEGIN →
       getStatementCategory
         (Query.sql { database := "other", sql := "insert into t values(1)" }) ≠
           Category.BL_COMMIT →
       getStatementCategory
         (Query.sql { database := "other", sql := "insert into t values(1)" }) ≠
           Category.BL_ROLLBACK →
       handleQuery targetCfg sendOk sW 7
           { database := "other", sql := "insert into t values(1)" } =
         StepOut.cont sW []) :=
  C9_theorem targetCfg sendOk sW 7
    { database := "other", sql := "insert into t values(1)" }
    (by decide) (by decide)

/-- C10: for an event that is neither a GTID nor an XID event, the
INTVAR and RAND arms append exactly one SET statement to the pending
buffer, with no charset, no synthesized TIMESTAMP statement and no
database filtering, and they never commit — nothing is emitted and the
autocommit flag is untouched, whatever its value. -/
theorem C10_theorem (bls : Streamer) (send : SendFn) (s : ParseState)
    (ev : BinlogEvent) (hg : ev.isGTID = false) (hx : ev.isXID = false) :
    (∀ n v, ev.isIntVar = true → ev.intVarResult = Except.ok (n, v) →
      dispatch bls send s ev =
        StepOut.cont { s with statements := some (s.statements.getD [] ++
          [{ category := Category.BL_SET
             sql := "SET " ++ n ++ "=" ++ toString v
             charset := none }]) } [])
    ∧ (∀ a b, ev.isIntVar = false → ev.isRand = true →
        ev.randResult = Except.ok (a, b) →
      dispatch bls send s ev =
        StepOut.cont { s with statements := some (s.statements.getD [] ++
          [{ category := Category.BL_SET
             sql := "SET @@RAND_SEED1=" ++ toString a ++
               ", @@RAND_SEED2=" ++ toString b
             charset := none }]) } []) := by
  constructor
  · intro n v hi hres
    unfold dispatch
    rw [if_neg (by simp [hg]), if_neg (by simp [hx]), if_pos hi]
    simp only [hres]
  · intro a b hi hr hres
    unfold dispatch
    rw [if_neg (by simp [hg]), if_neg (by simp [hx]), if_neg (by simp [hi]),
      if_pos hr]
    simp only [hres]

/-- C10 witness: the INTVAR and RAND arms on the mid-transaction state,
and also on an autocommit-true state where they still do not commit. -/
theorem C10_witness :
    dispatch targetCfg sendOk sW intVarEvent =
      StepOut.cont { sW with statements := some (sW.statements.getD [] ++
        [{ category := Category.BL_SET
           sql := "SET " ++ "INSERT_ID" ++ "=" ++ toString 5
           charset := none }]) } [] ∧
    dispatch targetCfg sendOk sW randEvent =
      StepOut.cont { sW with statements := some (sW.statements.getD [] ++
        [{ category := Category.BL_SET
           sql := "SET @@RAND_SEED1=" ++ toString 11 ++
             ", @@RAND_SEED2=" ++ toString 22
           charset := none }]) } [] :=
  ⟨(C10_theorem targetCfg sendOk sW intVarEvent rfl rfl).1 "INSERT_ID" 5 rfl rfl,
   (C10_theorem targetCfg sendOk sW randEvent rfl rfl).2 11 22 rfl rfl rfl⟩

end BinlogStreamer
